import Mathlib

/-!
Verification of the seastar `httpd` connection engine (`src/http/httpd.cc`).

The file shallowly embeds the connection engine: the dispatch step
(`connection::generate_reply`), the read loop (`connection::read` /
`connection::read_one`), the respond loop (`connection::respond` /
`connection::do_response_loop` / `connection::start_response` /
`connection::write_body`), the server registry
(`connection::on_new_connection` / `connection::~connection`), and the
bounded reply-channel protocol.  Continuation chains (`then`,
`then_wrapped`, `finally`) become explicit state-passing functions;
exceptions become an explicit `failed` flag threaded alongside the state.

External types that live in headers outside `src/` (`reply.hh`,
`request.hh`, `core/queue.hh`, parts of `httpd.hh`) are modelled from the
spec where noted in their doc comments.
-/

set_option linter.unusedVariables false

namespace Httpd

/-- Modelled from the spec: header mappings (`std::unordered_map<sstring,
sstring>` in `reply.hh` / `request.hh`, not under `src/`) are key-value
maps; we fix the deterministic iteration order the spec asks for
(insertion order) by using an association list without duplicate keys. -/
def Headers : Type := List (String × String)

/-- `map.find(key)`: the value stored under `key`, if any. -/
def hfind : List (String × String) → String → Option String
  | [], _ => none
  | (k, v) :: rest, key => if k = key then some v else hfind rest key

/-- `map[key] = value`: replace the value under `key` in place if the key is
present, otherwise append the new binding (insertion order). -/
def set_header (hs : List (String × String)) (key v : String) :
    List (String × String) :=
  match hs with
  | [] => [(key, v)]
  | (k, w) :: rest =>
      if k = key then (k, v) :: rest else (k, w) :: set_header rest key v

/-- Modelled from the spec: the external Request type (`request.hh` is not
under `src/`): an HTTP version string, a header mapping and a target URL.
Only `_version`, `_headers` and (through `set_query_param`) `_url` are
consulted by this core. -/
structure request where
  _version : String
  _headers : List (String × String)
  _url : String
  deriving DecidableEq, Repr

/-- Modelled from the spec: the external Response type (`reply.hh` is not
under `src/`): status/response-line, header mapping, body bytes, and an
HTTP version marker; `done` ("finalize") freezes the response line. -/
structure reply where
  _version : String
  _status : String
  _headers : List (String × String)
  _content : String
  _response_line : String
  deriving DecidableEq, Repr

/-- Modelled from the spec: `std::make_unique<reply>()`, a fresh response
template with empty headers and body and default status. -/
def freshReply : reply :=
  { _version := "", _status := "200 OK", _headers := [], _content := "",
    _response_line := "" }

/-- Modelled from the spec: the status/response-line derived from the
version marker and status at finalization time. -/
def response_line_of (r : reply) : String :=
  "HTTP/" ++ r._version ++ " " ++ r._status ++ "\r\n"

/-- `reply::set_version`: store the HTTP version marker. -/
def set_version (r : reply) (v : String) : reply := { r with _version := v }

/-- Modelled from the spec: `reply::done()` finalizes the response by
freezing the response line computed from the version marker and status. -/
def reply_done (r : reply) : reply :=
  { r with _response_line := response_line_of r }

/-- Observable events of the per-response lifecycle: mutations of the
in-flight response and the bytes put on the wire.  Used to settle the
temporal claims about ordering of version-stamping, finalization, header
decoration and writing. -/
inductive ev where
  | setVersion
  | finalize
  | setHeader (k : String)
  | push
  | write (s : String)
  | flush
  deriving DecidableEq, Repr

/-- Wire operations: actual socket writes and flushes, as opposed to
in-memory mutations of the response object. -/
def isWire : ev → Bool
  | ev.write _ => true
  | ev.flush => true
  | _ => false

/-- The external router, `routes::handle(url, req, resp)`: may fail (no
retry semantics), otherwise produces the reply to send. -/
def Handler : Type := String → request → reply → Except Unit reply

/-- Modelled from the spec: `set_query_param` (declared outside `src/`)
extracts the routable path from the request URL by stripping any query
component at the first question mark. -/
def set_query_param (req : request) : String :=
  match req._url.splitOn "?" with
  | [] => req._url
  | p :: _ => p

/-- The pure head of `connection::generate_reply` (httpd.cc lines 162-189):
allocate a fresh response, read the request's `Connection` header, compute
the `conn_keep_alive` / `conn_close` flags by literal string equality,
stamp the request version on the response, set `Connection: Keep-Alive` on
the response in the 1.0 keep-alive case, and derive `should_close`.
Returns the response template to hand to the router and the close
decision. -/
def generate_reply_prepare (req : request) : reply × Bool :=
  let it := hfind req._headers "Connection"
  let conn_keep_alive : Bool := it = some "Keep-Alive"
  let conn_close : Bool := it = some "Close"
  let resp := set_version freshReply req._version
  if req._version = "1.0" then
    if conn_keep_alive then
      ({ resp with _headers := set_header resp._headers "Connection" "Keep-Alive" },
       !conn_keep_alive)
    else (resp, !conn_keep_alive)
  else if req._version = "1.1" then (resp, conn_close)
  else (resp, true)

/-- The lifecycle events emitted by `generate_reply_prepare`:
`set_version` (line 176), then possibly the `Connection` header assignment
(line 180). -/
def generate_reply_prepare_events (req : request) : List ev :=
  if req._version = "1.0" ∧ hfind req._headers "Connection" = some "Keep-Alive"
  then [ev.setVersion, ev.setHeader "Connection"]
  else [ev.setVersion]

/-- `connection::generate_reply` (httpd.cc lines 162-198): prepare the
response template and close decision, strip the query from the URL, invoke
the router, and on success stamp the negotiated version on the returned
reply, finalize it and push it onto the reply channel.  A router failure
propagates (nothing is pushed).  Returns the emitted lifecycle events
together with either the failure or the pushed reply and the close
decision. -/
def generate_reply (handle : Handler) (req : request) :
    List ev × Except Unit (reply × Bool) :=
  let (resp, should_close) := generate_reply_prepare req
  let url := set_query_param req
  let version := req._version
  match handle url req resp with
  | Except.error e => (generate_reply_prepare_events req, Except.error e)
  | Except.ok rep =>
      (generate_reply_prepare_events req ++ [ev.setVersion, ev.finalize, ev.push],
       Except.ok (reply_done (set_version rep version), should_close))

/-! ### The read loop (`connection::read` / `connection::read_one`) -/

/-- Outcome of one `_read_buf.consume(_parser)` call in `read_one`
(httpd.cc line 130): the stream/parser may fail, signal end-of-stream, or
deliver a complete parsed request. -/
inductive readEvent where
  | eof
  | err
  | req (r : request)

/-- The read-side state of one connection together with the server
counters it touches: the `_done` flag, the sequence of items pushed onto
the bounded reply channel in push order (`none` is the terminal empty
marker `{}`), `_requests_served`, `_read_errors`, and whether the read
stream has been closed. -/
structure ConnState where
  _done : Bool
  pushes : List (Option reply)
  _requests_served : Nat
  _read_errors : Nat
  readClosed : Bool

/-- The read-side state of a freshly accepted connection: `_done` false,
nothing pushed, stream open. -/
def initConn : ConnState :=
  { _done := false, pushes := [], _requests_served := 0, _read_errors := 0,
    readClosed := false }

/-- `connection::read_one` (httpd.cc lines 128-144): reset the parser and
consume; on stream/parser failure the exception propagates (`true`); on
eof set `_done`; otherwise increment `_requests_served`, wait for channel
room, run `generate_reply` (whose failure propagates after the increment),
record its push, and set `_done` to the close decision. -/
def read_one (handle : Handler) (e : readEvent) (s : ConnState) :
    ConnState × Bool :=
  match e with
  | readEvent.err => (s, true)
  | readEvent.eof => ({ s with _done := true }, false)
  | readEvent.req r =>
      let s1 := { s with _requests_served := s._requests_served + 1 }
      match (generate_reply handle r).2 with
      | Except.error _ => (s1, true)
      | Except.ok (rep, close) =>
          ({ s1 with pushes := s1.pushes ++ [some rep], _done := close }, false)

/-- The `do_until([this]{return _done;}, read_one)` loop of
`connection::read` (httpd.cc line 115), driven by the sequence of consume
outcomes: stops when `_done` holds, when the input is exhausted, or when an
iteration raises (the `true` flag). -/
def do_read_until (handle : Handler) :
    List readEvent → ConnState → ConnState × Bool
  | [], s => (s, false)
  | e :: rest, s =>
      if s._done then (s, false)
      else
        match read_one handle e s with
        | (s1, true) => (s1, true)
        | (s1, false) => do_read_until handle rest s1

/-- `connection::read` (httpd.cc lines 114-127): run the `do_until` loop,
then (`then_wrapped`) swallow any failure, counting it in `_read_errors`;
push the terminal empty marker onto the reply channel unconditionally, and
(`finally`) close the read stream. -/
def read (handle : Handler) (evs : List readEvent) (s : ConnState) :
    ConnState :=
  let p := do_read_until handle evs s
  let s1 := if p.2 then { p.1 with _read_errors := p.1._read_errors + 1 } else p.1
  { s1 with pushes := s1.pushes ++ [none], readClosed := true }

/-- Specification-side description of the replies the read loop produces:
the dispatch results of the successfully parsed-and-routed requests, in
parse order, stopping at eof, at a failure, or after a request whose close
decision ends the connection. -/
def repliesOf (handle : Handler) : List readEvent → List reply
  | [] => []
  | readEvent.eof :: _ => []
  | readEvent.err :: _ => []
  | readEvent.req r :: rest =>
      match (generate_reply handle r).2 with
      | Except.error _ => []
      | Except.ok (rep, close) =>
          rep :: (if close then [] else repliesOf handle rest)

/-! ### The respond loop (`connection::respond`, `do_response_loop`,
`start_response`, `write_body`) -/

/-- `connection::start_response` (httpd.cc lines 83-100): unconditionally
assign the `Server`, `Date` and `Content-Length` headers of the in-flight
response (`Content-Length` is the byte size of `_content`), then write the
finalized `_response_line`, each header, the blank-line terminator, the
body (`write_body`, lines 157-160), and flush.  Returns the decorated
response and the emitted lifecycle/wire events.  The per-header rendering
(`write_reply_headers`, declared outside `src/`) is modelled from the
spec: each header is written as one `name: value` line, in the map's
deterministic order. -/
def start_response (date : String) (resp : reply) : reply × List ev :=
  let r1 := { resp with _headers := set_header resp._headers "Server" "Seastar httpd" }
  let r2 := { r1 with _headers := set_header r1._headers "Date" date }
  let cl := set_header r2._headers "Content-Length" (toString r2._content.length)
  let r3 := { r2 with _headers := cl }
  (r3,
   [ev.setHeader "Server", ev.setHeader "Date", ev.setHeader "Content-Length",
    ev.write r3._response_line]
   ++ r3._headers.map (fun kv => ev.write (kv.1 ++ ": " ++ kv.2 ++ "\r\n"))
   ++ [ev.write "\r\n", ev.write r3._content, ev.flush])

/-- One value popped from the reply channel by the respond loop: either
the terminal empty marker, or a response together with whether the write
sequence for it fails (a failing write contributes an unspecified partial
prefix to the wire, which we omit; only its control effect matters). -/
inductive popItem where
  | term
  | resp (r : reply) (wfail : Bool)

/-- Modelled from the spec: the bounded reply channel (`core/queue.hh` is
not under `src/`) delivers the pushed items to the consumer in strict FIFO
order; `popsOf` turns the push sequence into the pop sequence seen by the
respond loop (the terminal empty marker pops as `term`). -/
def popsOf (l : List (Option reply)) : List popItem :=
  l.map (fun o => match o with
    | none => popItem.term
    | some r => popItem.resp r false)

/-- `connection::do_response_loop` (httpd.cc lines 69-81), driven by the
sequence of popped values: pop; on the terminal marker stop successfully;
otherwise take ownership of the response, run `start_response` (a failure
there raises, flag `true`), release the response and loop.  Returns the
responses fully written in order, the event trace, and the failure flag. -/
def do_response_loop (date : String) :
    List popItem → List reply × List ev × Bool
  | [] => ([], [], false)
  | popItem.term :: _ => ([], [], false)
  | popItem.resp r true :: _ => ([], [], true)
  | popItem.resp r false :: rest =>
      let p := do_response_loop date rest
      (r :: p.1, (start_response date r).2 ++ p.2.1, p.2.2)

/-- The write-side state of one connection: the wire/lifecycle trace so
far, the server's `_respond_errors` counter, and whether the write stream
has been closed. -/
structure RespState where
  trace : List ev
  _respond_errors : Nat
  writeClosed : Bool

/-- `connection::respond` (httpd.cc lines 146-155): run the response loop,
then (`then_wrapped`) swallow any failure, counting it in
`_respond_errors`, and close the write stream in every case. -/
def respond (date : String) (items : List popItem) (s : RespState) :
    RespState :=
  let p := do_response_loop date items
  { trace := s.trace ++ p.2.1,
    _respond_errors := s._respond_errors + (if p.2.2 then 1 else 0),
    writeClosed := true }

/-- The full lifecycle event trace of one request's response as it flows
through dispatch (`generate_reply`, read side) and then through the write
path (`start_response`, respond side). -/
def pipeline_events (handle : Handler) (date : String) (req : request) :
    List ev :=
  match generate_reply handle req with
  | (evs, Except.error _) => evs
  | (evs, Except.ok (rep, _)) => evs ++ (start_response date rep).2

/-! ### The server registry (`connection::on_new_connection`,
`connection::~connection`) -/

/-- The server registry: `_total_connections`, `_current_connections` and
the intrusive list `_connections` of live connections (connections
identified by a number standing for object identity). -/
structure Registry where
  _total_connections : Nat
  _current_connections : Nat
  _connections : List Nat

/-- `connection::on_new_connection` (httpd.cc lines 108-112): increment
the total and current counters and append the connection to the live
list. -/
def on_new_connection (c : Nat) (r : Registry) : Registry :=
  { _total_connections := r._total_connections + 1,
    _current_connections := r._current_connections + 1,
    _connections := r._connections ++ [c] }

/-- `connection::~connection` (httpd.cc lines 102-106): decrement the
current counter and erase the connection from the live list (the
`maybe_idle` check mutates no registry state modelled here). -/
def destroy_connection (c : Nat) (r : Registry) : Registry :=
  { r with _current_connections := r._current_connections - 1,
           _connections := r._connections.erase c }

/-- Reachable registry states: starting from the empty registry, a fresh
connection object (not currently live, since a live C++ object cannot be
re-registered) may register, and a live connection's destructor may run. -/
inductive RegReach : Registry → Prop
  | init : RegReach ⟨0, 0, []⟩
  | register (c : Nat) (r : Registry) : RegReach r → c ∉ r._connections →
      RegReach (on_new_connection c r)
  | destroy (c : Nat) (r : Registry) : RegReach r → c ∈ r._connections →
      RegReach (destroy_connection c r)

/-! ### The bounded reply channel protocol (`read_one`'s
`not_full().then(push)` against `do_response_loop`'s pop) -/

/-- The producer's position in `read_one`'s channel protocol: `running`
outside the reserved window, `reserved` between the return of
`_replies.not_full()` (httpd.cc line 138) and the `_replies.push` inside
`generate_reply` (line 195) — the window in which dispatch runs and the
consumer may be scheduled. -/
inductive ProducerPC where
  | running
  | reserved
  deriving DecidableEq

/-- The shared state of one connection's reply channel: the queued
responses (by sequence number), the producer's position, and the next
sequence number to push. -/
structure ChanState where
  q : List Nat
  pc : ProducerPC
  nextId : Nat
  deriving DecidableEq

/-- The channel state of a fresh connection: empty queue, producer
running. -/
def chanInit : ChanState := { q := [], pc := ProducerPC.running, nextId := 0 }

/-- Interleaved small-step semantics of the channel protocol: the single
producer (the read loop) may pass `not_full()` only when the queue has
room, and pushes without any further room check (httpd.cc comment "Caller
guarantees enough room"); the single consumer (the respond loop) may pop
whenever the queue is nonempty.  Steps interleave arbitrarily, so consumer
pops may happen inside the producer's reserved window. -/
inductive ChanStep (cap : Nat) : ChanState → ChanState → Prop
  | reserve (s : ChanState) : s.pc = ProducerPC.running → s.q.length < cap →
      ChanStep cap s { s with pc := ProducerPC.reserved }
  | push (s : ChanState) : s.pc = ProducerPC.reserved →
      ChanStep cap s
        { q := s.q ++ [s.nextId], pc := ProducerPC.running,
          nextId := s.nextId + 1 }
  | pop (s : ChanState) (x : Nat) (rest : List Nat) : s.q = x :: rest →
      ChanStep cap s { s with q := rest }

/-- Channel states reachable from the fresh connection by any
interleaving of producer and consumer steps. -/
inductive ChanReach (cap : Nat) : ChanState → Prop
  | init : ChanReach cap chanInit
  | step (s t : ChanState) : ChanReach cap s → ChanStep cap s t →
      ChanReach cap t

/-! ### Header-map lemmas -/

/-- Looking up the key just assigned returns the assigned value. -/
theorem hfind_set_header_self (hs : List (String × String)) (key v : String) :
    hfind (set_header hs key v) key = some v := by
  induction hs with
  | nil => simp [set_header, hfind]
  | cons p rest ih =>
      obtain ⟨k, w⟩ := p
      by_cases h : k = key
      · simp [set_header, hfind, h]
      · simp [set_header, hfind, h, ih]

/-- Assigning one key leaves every other key's lookup unchanged. -/
theorem hfind_set_header_other (hs : List (String × String)) (key v other : String)
    (hne : key ≠ other) :
    hfind (set_header hs key v) other = hfind hs other := by
  induction hs with
  | nil => simp [set_header, hfind, hne]
  | cons p rest ih =>
      obtain ⟨k, w⟩ := p
      by_cases h : k = key
      · subst h
        simp [set_header, hfind, hne, ih]
      · simp [set_header, hfind, h, ih]

/-- C1: the dispatch step's close decision follows the HTTP/1.0-1.1
keep-alive table as a function of the version string and the literal value
of the request's `Connection` header, and the response template carries
`Connection: Keep-Alive` exactly in the 1.0 keep-alive case. -/
theorem generate_reply_close_decision (v : String)
    (hs : List (String × String)) (url : String) :
    let req : request := ⟨v, hs, url⟩
    let p := generate_reply_prepare req
    (p.2 = true ↔
      ((v = "1.0" ∧ hfind hs "Connection" ≠ some "Keep-Alive")
        ∨ (v = "1.1" ∧ hfind hs "Connection" = some "Close")
        ∨ (v ≠ "1.0" ∧ v ≠ "1.1")))
    ∧ hfind p.1._headers "Connection" =
        (if v = "1.0" ∧ hfind hs "Connection" = some "Keep-Alive"
         then some "Keep-Alive" else none) := by
  intro req p
  by_cases h10 : v = "1.0"
  · by_cases hka : hfind hs "Connection" = some "Keep-Alive"
    · constructor
      · simp [p, req, generate_reply_prepare, h10, hka]
      · simp [p, req, generate_reply_prepare, h10, hka, set_version, freshReply,
          hfind_set_header_self]
    · constructor
      · simp [p, req, generate_reply_prepare, h10, hka]
      · simp [p, req, generate_reply_prepare, h10, hka, set_version, freshReply, hfind]
  · by_cases h11 : v = "1.1"
    · by_cases hc : hfind hs "Connection" = some "Close"
      · constructor
        · simp [p, req, generate_reply_prepare, h10, h11, hc]
        · simp [p, req, generate_reply_prepare, h10, h11, hc, set_version,
            freshReply, hfind]
      · constructor
        · simp [p, req, generate_reply_prepare, h10, h11, hc]
        · simp [p, req, generate_reply_prepare, h10, h11, hc, set_version,
            freshReply, hfind]
    · constructor
      · simp [p, req, generate_reply_prepare, h10, h11]
      · simp [p, req, generate_reply_prepare, h10, h11, set_version, freshReply,
          hfind]

/-- Helper: the events of `start_response` are the three header
assignments followed by its wire operations. -/
theorem start_response_snd_split (date : String) (resp : reply) :
    (start_response date resp).2 =
      [ev.setHeader "Server", ev.setHeader "Date", ev.setHeader "Content-Length"]
        ++ (start_response date resp).2.filter isWire := by
  have hf : ∀ (l : List (String × String)),
      List.filter (isWire ∘ fun kv => ev.write (kv.1 ++ ": " ++ kv.2 ++ "\r\n")) l = l :=
    fun l => List.filter_eq_self.mpr (fun a _ => rfl)
  simp [start_response, isWire, List.filter_append, List.filter_map,
    Function.comp, hf]

/-- Helper: the wire operations of `start_response` are, in order, the
response line, one write per header of the decorated response, the
blank-line terminator, the body bytes, and a flush. -/
theorem start_response_wire (date : String) (resp : reply) :
    (start_response date resp).2.filter isWire =
      [ev.write ((start_response date resp).1._response_line)]
        ++ (start_response date resp).1._headers.map
            (fun kv => ev.write (kv.1 ++ ": " ++ kv.2 ++ "\r\n"))
        ++ [ev.write "\r\n", ev.write resp._content, ev.flush] := by
  have hf : ∀ (l : List (String × String)),
      List.filter (isWire ∘ fun kv => ev.write (kv.1 ++ ": " ++ kv.2 ++ "\r\n")) l = l :=
    fun l => List.filter_eq_self.mpr (fun a _ => rfl)
  simp [start_response, isWire, List.filter_append, List.filter_map,
    Function.comp, hf]

/-- C4: on every response the write path assigns the `Server`, `Date` and
`Content-Length` headers (whatever the handler stored under those keys),
with `Content-Length` equal to the body length; the body is unchanged; the
three assignments precede every wire operation; and the wire operations
write the response line, the headers, the blank line, then exactly the
body bytes, and flush. -/
theorem start_response_decorates (date : String) (resp : reply) :
    let d := (start_response date resp).1
    hfind d._headers "Server" = some "Seastar httpd"
    ∧ hfind d._headers "Date" = some date
    ∧ hfind d._headers "Content-Length" = some (toString resp._content.length)
    ∧ d._content = resp._content
    ∧ (start_response date resp).2 =
        [ev.setHeader "Server", ev.setHeader "Date", ev.setHeader "Content-Length"]
          ++ (start_response date resp).2.filter isWire
    ∧ (start_response date resp).2.filter isWire =
        [ev.write d._response_line]
          ++ d._headers.map (fun kv => ev.write (kv.1 ++ ": " ++ kv.2 ++ "\r\n"))
          ++ [ev.write "\r\n", ev.write resp._content, ev.flush] := by
  intro d
  refine ⟨?_, ?_, ?_, rfl, ?_, ?_⟩
  · show hfind (set_header (set_header (set_header resp._headers "Server"
      "Seastar httpd") "Date" date) "Content-Length"
      (toString resp._content.length)) "Server" = some "Seastar httpd"
    rw [hfind_set_header_other _ _ _ _ (by decide),
      hfind_set_header_other _ _ _ _ (by decide), hfind_set_header_self]
  · show hfind (set_header (set_header (set_header resp._headers "Server"
      "Seastar httpd") "Date" date) "Content-Length"
      (toString resp._content.length)) "Date" = some date
    rw [hfind_set_header_other _ _ _ _ (by decide), hfind_set_header_self]
  · exact hfind_set_header_self _ _ _
  · exact start_response_snd_split date resp
  · exact start_response_wire date resp

/-- Helper: fed responses followed by the terminal marker, the respond
loop writes exactly those responses in order, emits the concatenation of
their `start_response` events, stops successfully at the marker and
ignores anything after it. -/
theorem do_response_loop_writes_eq (date : String) (rs : List reply)
    (rest : List popItem) :
    do_response_loop date
        (rs.map (fun r => popItem.resp r false) ++ popItem.term :: rest)
      = (rs, (rs.map (fun r => (start_response date r).2)).flatten, false) := by
  induction rs with
  | nil => simp [do_response_loop]
  | cons r rs ih => simp [do_response_loop, ih]

/-- C6: driven by any pop sequence that delivers responses followed by the
terminal marker, the respond loop stops successfully at the marker
(ignoring anything after it), fully writes exactly the popped responses in
pop order with each iteration's trace being its `start_response` events,
and each iteration's wire operations are, in order: the response line, one
write per header (in the map's deterministic order), the blank-line
terminator, the body bytes, and a flush. -/
theorem respond_loop_structure (date : String) (rs : List reply)
    (rest : List popItem) :
    do_response_loop date
        (rs.map (fun r => popItem.resp r false) ++ popItem.term :: rest)
      = (rs, (rs.map (fun r => (start_response date r).2)).flatten, false)
    ∧ ∀ r : reply, (start_response date r).2.filter isWire =
        [ev.write ((start_response date r).1._response_line)]
          ++ (start_response date r).1._headers.map
              (fun kv => ev.write (kv.1 ++ ": " ++ kv.2 ++ "\r\n"))
          ++ [ev.write "\r\n", ev.write r._content, ev.flush] := by
  exact ⟨do_response_loop_writes_eq date rs rest, fun r => start_response_wire date r⟩

/-- C5: the respond path always closes the write stream; a failure of the
response loop is swallowed into exactly one increment of the
respond-error counter (no increment on success); and a write failure
terminates the loop immediately — everything popped after the failing
response is never examined or written. -/
theorem respond_error_handling (date : String) (items : List popItem)
    (s : RespState) (pre : List popItem) (r : reply) (post : List popItem) :
    (respond date items s).writeClosed = true
    ∧ (respond date items s)._respond_errors =
        s._respond_errors + (if (do_response_loop date items).2.2 then 1 else 0)
    ∧ do_response_loop date (pre ++ popItem.resp r true :: post)
        = do_response_loop date (pre ++ [popItem.resp r true]) := by
  refine ⟨rfl, rfl, ?_⟩
  induction pre with
  | nil => simp [do_response_loop]
  | cons p rest ih =>
      cases p with
      | term => simp [do_response_loop]
      | resp a wfail =>
          cases wfail with
          | true => simp [do_response_loop]
          | false => simp [do_response_loop, ih]

/-- Helper: a read-loop iteration never touches the read-error counter
(the only increment is the one in `read`'s failure handler). -/
theorem do_read_until_read_errors (handle : Handler) (evs : List readEvent)
    (s : ConnState) :
    (do_read_until handle evs s).1._read_errors = s._read_errors := by
  induction evs generalizing s with
  | nil => rfl
  | cons e rest ih =>
      by_cases hd : s._done
      · simp [do_read_until, hd]
      · cases e with
        | eof => simp [do_read_until, hd, read_one, ih]
        | err => simp [do_read_until, hd, read_one]
        | req r =>
            cases hgr : (generate_reply handle r).2 with
            | error e => simp [do_read_until, hd, read_one, hgr]
            | ok v => simp [do_read_until, hd, read_one, hgr, ih]

/-- C3: in every exit of the read loop — failing or not — the terminal
empty marker is pushed after everything the loop pushed and the read
stream is closed; a failure of a loop iteration (stream, parser or
dispatch error) is swallowed into exactly one increment of the read-error
counter (none on success); a stream error terminates the loop at once,
regardless of remaining input, as if end-of-stream occurred; and the pop
sequence the respond loop sees therefore always ends with the terminal
marker, so the respond loop terminates. -/
theorem read_error_handling (handle : Handler) (evs : List readEvent)
    (s : ConnState) (rest : List readEvent) :
    (read handle evs s).readClosed = true
    ∧ (read handle evs s).pushes = (do_read_until handle evs s).1.pushes ++ [none]
    ∧ (read handle evs s)._read_errors =
        s._read_errors + (if (do_read_until handle evs s).2 then 1 else 0)
    ∧ do_read_until handle (readEvent.err :: rest) s =
        (if s._done then (s, false) else (s, true))
    ∧ (popsOf ((read handle evs s).pushes)).getLast? = some popItem.term := by
  refine ⟨rfl, ?_, ?_, ?_, ?_⟩
  · by_cases hf : (do_read_until handle evs s).2 <;> simp [read, hf]
  · by_cases hf : (do_read_until handle evs s).2 <;>
      simp [read, hf, do_read_until_read_errors]
  · by_cases hd : s._done <;> simp [do_read_until, hd, read_one]
  · by_cases hf : (do_read_until handle evs s).2 <;> simp [read, hf, popsOf]

/-- Helper: once `_done` holds the read loop performs no further
iteration. -/
theorem do_read_until_done (handle : Handler) (evs : List readEvent)
    (s : ConnState) (hd : s._done = true) :
    do_read_until handle evs s = (s, false) := by
  cases evs with
  | nil => rfl
  | cons e rest => simp [do_read_until, hd]

/-- Helper: the read loop pushes onto the reply channel exactly the
dispatch results of the successfully parsed-and-routed requests, in parse
order, whatever mix of requests, eof and failures the stream delivers. -/
theorem do_read_until_pushes (handle : Handler) (evs : List readEvent)
    (s : ConnState) (hd : s._done = false) :
    (do_read_until handle evs s).1.pushes =
      s.pushes ++ (repliesOf handle evs).map some := by
  induction evs generalizing s with
  | nil => simp [do_read_until, repliesOf]
  | cons e rest ih =>
      cases e with
      | eof =>
          simp [do_read_until, hd, read_one, repliesOf, do_read_until_done]
      | err => simp [do_read_until, hd, read_one, repliesOf]
      | req r =>
          cases hgr : (generate_reply handle r).2 with
          | error e => simp [do_read_until, hd, read_one, hgr, repliesOf]
          | ok v =>
              obtain ⟨rep, close⟩ := v
              cases close with
              | true =>
                  simp [do_read_until, hd, read_one, hgr, repliesOf,
                    do_read_until_done]
              | false => simp [do_read_until, hd, read_one, hgr, repliesOf, ih]

/-- C2: for every connection and every sequence of consume outcomes, the
read loop enqueues onto the reply channel exactly the responses of the
parsed requests in parse order (followed by the terminal marker), and the
respond loop, fed those items in the channel's FIFO order, fully writes
exactly those responses in that same order — none skipped, none
reordered. -/
theorem fifo_responses (handle : Handler) (date : String)
    (evs : List readEvent) :
    (read handle evs initConn).pushes =
      (repliesOf handle evs).map some ++ [none]
    ∧ (do_response_loop date (popsOf ((read handle evs initConn).pushes))).1
        = repliesOf handle evs := by
  have hp : (read handle evs initConn).pushes =
      (repliesOf handle evs).map some ++ [none] := by
    have h1 := do_read_until_pushes handle evs initConn rfl
    have h2 : initConn.pushes = [] := rfl
    rw [h2, List.nil_append] at h1
    by_cases hf : (do_read_until handle evs initConn).2 <;> simp [read, hf, h1]
  refine ⟨hp, ?_⟩
  rw [hp]
  have hpops : popsOf ((repliesOf handle evs).map some ++ [none]) =
      (repliesOf handle evs).map (fun r => popItem.resp r false)
        ++ popItem.term :: [] := by
    simp [popsOf]
  rw [hpops, do_response_loop_writes_eq]

/-- C10: `_requests_served` counts parsed requests, not completed
responses: a parsed request increments it before the channel wait and
before dispatch runs, so a request whose dispatch/router invocation fails
is still counted — the read loop then ends with the read-error counter
bumped and nothing but the terminal marker pushed for it. -/
theorem requests_served_counts_parsed (handle : Handler) (r : request)
    (s : ConnState)
    (hfail : (generate_reply handle r).2 = Except.error ())
    (hdone : s._done = false) :
    (read_one handle (readEvent.req r) s).1._requests_served
        = s._requests_served + 1
    ∧ (read handle [readEvent.req r] s)._requests_served
        = s._requests_served + 1
    ∧ (read handle [readEvent.req r] s)._read_errors = s._read_errors + 1
    ∧ (read handle [readEvent.req r] s).pushes = s.pushes ++ [none] := by
  refine ⟨?_, ?_, ?_, ?_⟩ <;>
    simp [read, do_read_until, read_one, hdone, hfail]

/-- C10 witness: a concrete request on a fresh connection whose router
fails is still counted as served. -/
theorem requests_served_counts_parsed_witness :
    (read_one (fun _ _ _ => Except.error ())
        (readEvent.req ⟨"1.1", [], "/"⟩) initConn).1._requests_served
      = initConn._requests_served + 1
    ∧ (read (fun _ _ _ => Except.error ())
        [readEvent.req ⟨"1.1", [], "/"⟩] initConn)._requests_served
      = initConn._requests_served + 1
    ∧ (read (fun _ _ _ => Except.error ())
        [readEvent.req ⟨"1.1", [], "/"⟩] initConn)._read_errors
      = initConn._read_errors + 1
    ∧ (read (fun _ _ _ => Except.error ())
        [readEvent.req ⟨"1.1", [], "/"⟩] initConn).pushes
      = initConn.pushes ++ [none] :=
  requests_served_counts_parsed (fun _ _ _ => Except.error ())
    ⟨"1.1", [], "/"⟩ initConn rfl rfl

/-- Helper: a member of a duplicate-free list is gone after `erase`. -/
theorem nodup_not_mem_erase {l : List Nat} {a : Nat} (hn : l.Nodup) :
    a ∉ l.erase a := by
  induction l with
  | nil => simp
  | cons b t ih =>
      by_cases hb : b = a
      · subst hb
        simp only [List.erase_cons_head]
        exact (List.nodup_cons.mp hn).1
      · rw [List.erase_cons_tail (by simp [hb])]
        intro hmem
        rcases List.mem_cons.mp hmem with h | h
        · exact hb h.symm
        · exact ih (List.nodup_cons.mp hn).2 h

/-- Helper invariant of reachable registry states: the current-connection
counter equals the live-list length, and the live list never holds the
same connection object twice. -/
theorem regReach_invariant (r : Registry) (h : RegReach r) :
    r._current_connections = r._connections.length ∧ r._connections.Nodup := by
  induction h with
  | init => simp
  | register c r hr hc ih =>
      refine ⟨?_, ?_⟩
      · simp [on_new_connection, ih.1]
      · simp [on_new_connection, List.nodup_append, ih.2, hc]
  | destroy c r hr hc ih =>
      refine ⟨?_, ?_⟩
      · simp [destroy_connection, ih.1, ← List.length_erase_add_one hc]
      · exact (List.erase_sublist c r._connections).nodup ih.2

/-- C8: in every reachable registry state the current-active counter
equals the size of the live set; registering a fresh connection adds it to
the set and increments both counters; destroying a live connection removes
it from the set and decrements the current counter exactly once, leaving
the destroyed connection absent from the live set. -/
theorem registry_invariant (r : Registry) (c : Nat) (h : RegReach r)
    (hc : c ∈ r._connections) :
    r._current_connections = r._connections.length
    ∧ (∀ d : Nat,
        (on_new_connection d r)._total_connections = r._total_connections + 1
        ∧ (on_new_connection d r)._current_connections =
            r._current_connections + 1
        ∧ d ∈ (on_new_connection d r)._connections)
    ∧ (destroy_connection c r)._current_connections + 1 =
        r._current_connections
    ∧ (destroy_connection c r)._connections.length + 1 =
        r._connections.length
    ∧ c ∉ (destroy_connection c r)._connections := by
  obtain ⟨hlen, hnd⟩ := regReach_invariant r h
  refine ⟨hlen, ?_, ?_, ?_, ?_⟩
  · intro d
    exact ⟨rfl, rfl, by simp [on_new_connection]⟩
  · have hpos := List.length_pos_of_mem hc
    simp [destroy_connection, hlen]
    omega
  · simp [destroy_connection, List.length_erase_add_one hc]
  · simpa [destroy_connection] using nodup_not_mem_erase hnd

/-- C8 witness: the registry reached by registering connection 0 on the
empty registry satisfies the invariant, and destroying connection 0
decrements once and removes it. -/
theorem registry_invariant_witness :
    (on_new_connection 0 ⟨0, 0, []⟩)._current_connections =
      (on_new_connection 0 ⟨0, 0, []⟩)._connections.length
    ∧ (∀ d : Nat,
        (on_new_connection d (on_new_connection 0 ⟨0, 0, []⟩))._total_connections
          = (on_new_connection 0 ⟨0, 0, []⟩)._total_connections + 1
        ∧ (on_new_connection d (on_new_connection 0 ⟨0, 0, []⟩))._current_connections
          = (on_new_connection 0 ⟨0, 0, []⟩)._current_connections + 1
        ∧ d ∈ (on_new_connection d (on_new_connection 0 ⟨0, 0, []⟩))._connections)
    ∧ (destroy_connection 0 (on_new_connection 0 ⟨0, 0, []⟩))._current_connections
        + 1 = (on_new_connection 0 ⟨0, 0, []⟩)._current_connections
    ∧ (destroy_connection 0 (on_new_connection 0 ⟨0, 0, []⟩))._connections.length
        + 1 = (on_new_connection 0 ⟨0, 0, []⟩)._connections.length
    ∧ 0 ∉ (destroy_connection 0 (on_new_connection 0 ⟨0, 0, []⟩))._connections :=
  registry_invariant (on_new_connection 0 ⟨0, 0, []⟩) 0
    (RegReach.register 0 ⟨0, 0, []⟩ RegReach.init (by simp))
    (by simp [on_new_connection])

/-- C9: in every reachable channel state, whenever the producer sits
between its `not_full()` reservation and its push — however many consumer
pops were scheduled in between — the queue still has room, so the push
never finds the channel full; and the queue occupancy (responses
parsed-and-dispatched ahead of those written) never exceeds the
capacity. -/
theorem channel_reserve_push (cap : Nat) (s : ChanState)
    (h : ChanReach cap s) :
    (s.pc = ProducerPC.reserved → s.q.length < cap) ∧ s.q.length ≤ cap := by
  induction h with
  | init => simp [chanInit]
  | step s t hs hstep ih =>
      cases hstep with
      | reserve hpc hlen => exact ⟨fun _ => hlen, ih.2⟩
      | push hpc =>
          refine ⟨?_, ?_⟩
          · intro hcontra
            simp at hcontra
          · have := ih.1 hpc
            simp
            omega
      | pop x rest hq =>
          have hlen : rest.length + 1 = s.q.length := by simp [hq]
          refine ⟨fun hpc => ?_, ?_⟩
          · have := ih.1 hpc
            simp
            omega
          · have := ih.2
            simp
            omega

/-- C9 witness: with capacity 1, the state just after the producer's
reservation is reachable and the invariant holds there. -/
theorem channel_reserve_push_witness :
    (({ q := [], pc := ProducerPC.reserved, nextId := 0 } : ChanState).pc
        = ProducerPC.reserved →
      ({ q := [], pc := ProducerPC.reserved, nextId := 0 } : ChanState).q.length < 1)
    ∧ ({ q := [], pc := ProducerPC.reserved, nextId := 0 } : ChanState).q.length ≤ 1 :=
  channel_reserve_push 1 { q := [], pc := ProducerPC.reserved, nextId := 0 }
    (ChanReach.step chanInit _ ChanReach.init
      (ChanStep.reserve chanInit rfl (by simp [chanInit])))

/-- C7 counterexample: for the concrete request `GET / HTTP/1.1` (no
headers) and the identity router, the per-response lifecycle trace
finalizes the response (in `generate_reply`, before the push) and only
afterwards mutates its `Server` header (in `start_response`); with the
identity router the version marker is also stamped twice on the same
response object.  This refutes the claim that the `Server`/`Date`/
`Content-Length` mutations happen before finalization. -/
theorem finalize_precedes_decoration_cex :
    ev.finalize ∈ pipeline_events (fun _ _ resp => Except.ok resp) "D"
      ⟨"1.1", [], "/"⟩
    ∧ ev.setHeader "Server" ∈ pipeline_events (fun _ _ resp => Except.ok resp)
        "D" ⟨"1.1", [], "/"⟩
    ∧ (pipeline_events (fun _ _ resp => Except.ok resp) "D"
        ⟨"1.1", [], "/"⟩).indexOf ev.finalize
      < (pipeline_events (fun _ _ resp => Except.ok resp) "D"
          ⟨"1.1", [], "/"⟩).indexOf (ev.setHeader "Server")
    ∧ (pipeline_events (fun _ _ resp => Except.ok resp) "D"
        ⟨"1.1", [], "/"⟩).count ev.setVersion = 2 := by
  decide

/-- C7 amended: per response, the dispatch step stamps the version marker
(on the template and again on the routed reply) and finalizes the reply
before pushing it; the core's `Server`/`Date`/`Content-Length` mutations
happen after finalization, in the write path, but before any wire
operation of that response; once the wire operations begin no further
mutation occurs.  Before finalization there are no wire operations. -/
theorem finalize_then_decorate_then_write (handle : Handler) (date : String)
    (req : request) (rep : reply)
    (hok : handle (set_query_param req) req (generate_reply_prepare req).1
      = Except.ok rep) :
    pipeline_events handle date req =
      generate_reply_prepare_events req
        ++ [ev.setVersion, ev.finalize, ev.push]
        ++ [ev.setHeader "Server", ev.setHeader "Date",
            ev.setHeader "Content-Length"]
        ++ (start_response date (reply_done (set_version rep req._version))).2.filter
            isWire
    ∧ (∀ e ∈ generate_reply_prepare_events req,
        isWire e = false ∧ e ≠ ev.finalize)
    ∧ (∀ e ∈ (start_response date
          (reply_done (set_version rep req._version))).2.filter isWire,
        isWire e = true) := by
  refine ⟨?_, ?_, ?_⟩
  · have hsplit := start_response_snd_split date
      (reply_done (set_version rep req._version))
    simp only [pipeline_events, generate_reply, hok]
    conv_lhs => rw [hsplit]
    simp
  · intro e he
    simp only [generate_reply_prepare_events] at he
    split at he
    · simp at he
      rcases he with rfl | rfl <;> simp [isWire]
    · simp at he
      subst he
      simp [isWire]
  · intro e he
    exact (List.mem_filter.mp he).2

/-- C7 amended witness: the decomposition at the concrete request
`GET / HTTP/1.1` with the identity router. -/
theorem finalize_then_decorate_then_write_witness :
    pipeline_events (fun _ _ resp => Except.ok resp) "D" ⟨"1.1", [], "/"⟩ =
      generate_reply_prepare_events ⟨"1.1", [], "/"⟩
        ++ [ev.setVersion, ev.finalize, ev.push]
        ++ [ev.setHeader "Server", ev.setHeader "Date",
            ev.setHeader "Content-Length"]
        ++ (start_response "D" (reply_done (set_version
            (generate_reply_prepare ⟨"1.1", [], "/"⟩).1 "1.1"))).2.filter isWire
    ∧ (∀ e ∈ generate_reply_prepare_events (⟨"1.1", [], "/"⟩ : request),
        isWire e = false ∧ e ≠ ev.finalize)
    ∧ (∀ e ∈ (start_response "D" (reply_done (set_version
          (generate_reply_prepare ⟨"1.1", [], "/"⟩).1 "1.1"))).2.filter isWire,
        isWire e = true) :=
  finalize_then_decorate_then_write (fun _ _ resp => Except.ok resp) "D"
    ⟨"1.1", [], "/"⟩ (generate_reply_prepare ⟨"1.1", [], "/"⟩).1 rfl

end Httpd
